import Mathlib

/-!
Verification of the `hri` speech/gaze/gesture coordination subsystem
(`hri_api/entities/robot.py`, `hri_api/entities/world.py`) against its
natural-language specification.

The Python code is shallowly embedded: pure string processing becomes Lean
functions on `String`/`List Char`, the mutable `SayToPlan`/`Robot`/`World`
objects become explicit state records, exceptions become `Except`/`Option`
results, and Python `float` attribute values are modelled as rationals.
XML parsing (`xml.etree.ElementTree`) is an external library: the embedding
works on the node list produced by `tree.iter()` (pre-order traversal of the
`<sayto>`-wrapped fragment), each node carrying its tag, attributes, text and
tail exactly as ElementTree reports them.
-/

/-- Python exception classes that the embedded code can raise, carrying the
message string built at the raise site. -/
inductive PyErr
  | typeErr (msg : String)
  | attrErr (msg : String)
  | valueErr (msg : String)
  deriving DecidableEq, Repr

/-- Decidable equality for `Except` results, used to evaluate the embedded
functions on concrete inputs. -/
instance {E A : Type} [DecidableEq E] [DecidableEq A] : DecidableEq (Except E A) :=
  fun a b =>
    match a, b with
    | Except.error e1, Except.error e2 =>
      if h : e1 = e2 then isTrue (by rw [h]) else isFalse (by
        intro hc
        exact h (Except.error.inj hc))
    | Except.ok v1, Except.ok v2 =>
      if h : v1 = v2 then isTrue (by rw [h]) else isFalse (by
        intro hc
        exact h (Except.ok.inj hc))
    | Except.error _, Except.ok _ => isFalse (by intro hc; exact Except.noConfusion hc)
    | Except.ok _, Except.error _ => isFalse (by intro hc; exact Except.noConfusion hc)

/-- The apostrophe character (code point 39), written via `Char.ofNat` so that
the source file never contains a bare quote character. -/
def quoteChar : Char := Char.ofNat 39

/-- Membership in the regex class `\w` (ASCII scope): letters, digits or
underscore.  Used by `SayToPlan.valid_words_regex` (robot.py line 110). -/
def isWordChar (c : Char) : Bool := c.isAlphanum || c == '_'

/-- Membership in the regex class `[!?,.]` of `valid_words_regex`, which is
also the clause-splitting class of `get_gaze_change_locations`
(robot.py lines 110 and 203). -/
def isPunctC (c : Char) : Bool := c == '!' || c == '?' || c == ',' || c == '.'

/-!
The word tokenizer `re.findall("\w+[']{0,1}\w*[!?,.]{0,1}", text)` is embedded
as the deterministic left-to-right scan the regex engine performs.  A match
must begin with a `\w` character, and every regex part after `\w+` has a zero
minimum over character classes disjoint from each other, so the engine never
backtracks: it takes the maximal `\w+` run, one optional apostrophe, the
maximal following `\w*` run, and one optional closing punctuation character.
This scan is a three-state automaton over the scan position:

* `s0` — outside any match (`re.findall` advancing position by position);
* `w1` — inside the `\w+` / first `\w*` part of a match;
* `w2` — inside the `\w*` part after the optional apostrophe.

A match is counted when a `\w` character is reached in state `s0`.  From `w1`
an apostrophe enters `w2`; any other non-`\w` character ends the match (a
closing punctuation character is consumed by `[!?,.]{0,1}`, any other
character is re-examined at `s0` where it cannot start a match — in both
cases the scan continues after it in state `s0`, so the transitions below
coincide).  From `w2` every non-`\w` character likewise continues in `s0`.
-/

/-- States of the word-scan automaton. -/
inductive TokSt
  | s0
  | w1
  | w2
  deriving DecidableEq, Repr

/-- One transition of the word-scan automaton. -/
def nextSt : TokSt → Char → TokSt
  | .s0, c => if isWordChar c then .w1 else .s0
  | .w1, c => if isWordChar c then .w1 else if c = quoteChar then .w2 else .s0
  | .w2, c => if isWordChar c then .w2 else .s0

/-- Number of matches begun at this character: `1` exactly when a `\w`
character is reached outside a match. -/
def countInc (st : TokSt) (c : Char) : Nat :=
  if st = TokSt.s0 ∧ isWordChar c = true then 1 else 0

/-- Number of word matches found by the scan from state `st` to the end of
the input. -/
def cwGo (st : TokSt) : List Char → Nat
  | [] => 0
  | c :: cs => countInc st c + cwGo (nextSt st c) cs

/-- Number of matches of `SayToPlan.valid_words_regex` in the character
list: the embedding of `len(re.findall("\w+[']{0,1}\w*[!?,.]{0,1}", text))`. -/
def countWords (l : List Char) : Nat := cwGo TokSt.s0 l

/-- Embedding of `SayToPlan.num_words` (robot.py lines 213-215). -/
def num_words (text : String) : Nat := countWords text.data

/-- Embedding of `re.split("[,.?!]", text)` (robot.py line 203): the pieces of
the input between occurrences of the four clause characters, empty pieces
included. -/
def splitP : List Char → List (List Char)
  | [] => [[]]
  | c :: cs =>
    if isPunctC c then [] :: splitP cs
    else
      match splitP cs with
      | h :: t => (c :: h) :: t
      | [] => [[c]]

/-- Accumulating loop of `SayToPlan.get_gaze_change_locations`
(robot.py lines 206-209): for each clause, add its word count to the running
length and record `length + 1` as a key. -/
def gclGo (len : Nat) : List (List Char) → List Nat
  | [] => []
  | p :: ps => (len + countWords p + 1) :: gclGo (len + countWords p) ps

/-- Embedding of `SayToPlan.get_gaze_change_locations` (robot.py lines
201-211).  The Python dictionary only ever has its keys consulted (via `in`),
so it is embedded as the list of recorded keys. -/
def get_gaze_change_locations (text : String) : List Nat :=
  gclGo 0 (splitP text.data)


/-! Embedding of the annotated-text compiler (`SayToPlan`, robot.py). -/

/-- One element of the node sequence produced by `tree.iter()` on
`ET.fromstring("<sayto>" + text + "</sayto>")`: pre-order traversal, the
synthetic `sayto` root first (its `text`/`tail` as ElementTree reports them),
then each tag node with its attribute dictionary, inner text and tail. -/
structure XNode where
  tag : String
  attrib : List (String × String)
  text : Option String
  tail : Option String
  deriving DecidableEq, Repr

/-- The accumulation step `text += x + " "` guarded by `if x is not None`,
shared by `get_sentence` and `parse_parameters` (robot.py lines 224-231,
262-268, 304-305). -/
def appendOpt (seen : String) : Option String → String
  | some t => seen ++ t ++ " "
  | none => seen

/-- Loop accumulator invariant of the `seen_text` / `text` strings: each
appended piece ends in a space, so the accumulator is empty or ends in a
space. -/
def SeenInv (s : String) : Prop := s.data = [] ∨ ∃ l, s.data = l ++ [' ']

/-- Whitespace stripped by Python `str.strip()` (ASCII scope). -/
def isPySpace (c : Char) : Bool := c == ' ' || c == '\t' || c == '\n' || c == '\r'

/-- Embedding of Python `str.strip()`. -/
def pyStrip (s : String) : String :=
  ⟨((s.data.dropWhile isPySpace).reverse.dropWhile isPySpace).reverse⟩

/-- The `TypeError` Python raises for `None + " "`. -/
def concatTypeErr : PyErr :=
  PyErr.typeErr "unsupported operand types for + : NoneType and str"

/-- Loop of `SayToPlan.get_sentence` (robot.py lines 222-233).  Note the
second branch is the source verbatim: under `if node.tail is not None` it
appends `node.text` again (not `node.tail`), and raises `TypeError` when
`node.text` is `None` there. -/
def getSentenceGo (acc : String) : List XNode → Except PyErr String
  | [] => Except.ok (pyStrip acc)
  | n :: ns =>
    if n.tag == "sayto" then
      getSentenceGo (appendOpt acc n.text) ns
    else
      match n.tail with
      | some _ =>
        match n.text with
        | some t => getSentenceGo (appendOpt (appendOpt acc n.text) (some t)) ns
        | none => Except.error concatTypeErr
      | none => getSentenceGo (appendOpt acc n.text) ns

/-- Embedding of `SayToPlan.get_sentence` (robot.py lines 217-233). -/
def get_sentence (nodes : List XNode) : Except PyErr String :=
  getSentenceGo "" nodes

/-- Numeric value of a digit run. -/
def digitsVal (l : List Char) : Nat :=
  l.foldl (fun acc c => acc * 10 + (c.toNat - 48)) 0

/-- An exact decimal number `mant / 10 ^ frac`: the value of a Python float
literal or of `float(s)` on the decimal strings this code receives.  Two
representations denote the same number exactly when their `toRat`
interpretations agree; every concrete value in this development is compared
in the representation the embedded code itself computes. -/
structure PyFloat where
  mant : Int
  frac : Nat
  deriving DecidableEq, Repr

/-- The rational number a `PyFloat` denotes. -/
def PyFloat.toRat (x : PyFloat) : ℚ := (x.mant : ℚ) / (10 : ℚ) ^ x.frac

/-- Model of Python `float(s)` on the decimal literals this code receives
(optional sign, digits, optional fractional part), as an exact decimal;
any other shape is a `ValueError` (`none`). -/
def pyFloat (s : String) : Option PyFloat :=
  let cs := s.data
  let negp : Bool × List Char :=
    match cs with
    | c :: r => if c = '-' then (true, r) else (false, cs)
    | [] => (false, [])
  let ip := negp.2.takeWhile Char.isDigit
  let rest := negp.2.dropWhile Char.isDigit
  match rest with
  | [] =>
    if ip.isEmpty then none
    else some ⟨cond negp.1 (-(digitsVal ip : Int)) (digitsVal ip : Int), 0⟩
  | c :: frac =>
    if c = '.' ∧ frac.all Char.isDigit ∧ 0 < ip.length + frac.length then
      let m : Int := digitsVal ip * 10 ^ frac.length + digitsVal frac
      some ⟨cond negp.1 (-m) m, frac.length⟩
    else none

/-- The Python float literal `0.5` (robot.py lines 277-278), exactly. -/
def halfF : PyFloat := ⟨5, 1⟩

/-- Embedding of `hri_msgs` `ExpressionGoal` as filled by
`parse_parameters` (robot.py lines 275-286); `duration` keeps the value
returned by the external timing service, of caller-chosen type `δ`. -/
structure ExpressionGoal (δ : Type) where
  expression : String
  intensity : PyFloat
  speed : PyFloat
  duration : δ
  deriving DecidableEq, Repr

/-- Embedding of `hri_msgs` `GestureGoal` as filled by `parse_parameters`
(robot.py lines 290-298). -/
structure GestureGoal (δ : Type) where
  gesture : String
  target : String
  duration : δ
  deriving DecidableEq, Repr

/-- Python dict assignment `d[k] = v`: replace the value at an existing key
in place, otherwise append the new key in insertion order. -/
def dictInsert {α : Type} (k : Nat) (v : α) : List (Nat × α) → List (Nat × α)
  | [] => [(k, v)]
  | (k2, v2) :: rest =>
    if k2 = k then (k, v) :: rest else (k2, v2) :: dictInsert k v rest

/-- The audience of a `say_to` call.  A `Query` audience is embedded as its
(externally resolved) result list of `(entity id, head entity id)` pairs;
an audience passed as a plain Python list is kept distinct because
`say_feedback` checks `isinstance(audience, Entity)` / `Query` and a list
matches neither. -/
inductive Audience
  | entity (id headId : String)
  | query (people : List (String × String))
  | plainList (people : List (String × String))
  deriving DecidableEq, Repr

/-- An actuator command as issued to a channel (the argument of
`robot.gaze` / `robot.do`); an issued command also serves as the identity of
the action handle it returns. -/
inductive Cmd (δ : Type)
  | gazeAt (targetId : String)
  | expr (g : ExpressionGoal δ)
  | gest (g : GestureGoal δ)
  deriving DecidableEq, Repr

/-- The mutable fields of `SayToPlan` (robot.py lines 114-143): the parsed
tables plus the handle bookkeeping and the preemption flag. -/
structure SayToPlanState (δ : Type) where
  audience : Audience
  current_gazee : Option String
  sentence : String
  gesture_lookup : List (Nat × GestureGoal δ)
  expression_lookup : List (Nat × ExpressionGoal δ)
  gaze_change_locations : List Nat
  say_ah : Option Unit
  gaze_ah : Option (Cmd δ)
  other_ahs : List (Cmd δ)
  preempt_requested : Bool
  deriving DecidableEq, Repr

/-- Embedding of `SayToPlan.enum_contains` (robot.py lines 235-241), the
vocabulary being the list of member names. -/
def enum_contains (enum : List String) (name : String) : Bool :=
  enum.contains name

/-- Attribute handling of the expression branch (robot.py lines 277-284):
default the value, override it by `float(node.attrib[key])` when the
attribute is present; an unconvertible attribute raises `ValueError`. -/
def attrFloat (n : XNode) (key : String) (dflt : PyFloat) : Except PyErr PyFloat :=
  match n.attrib.lookup key with
  | none => Except.ok dflt
  | some s =>
    match pyFloat s with
    | some q => Except.ok q
    | none =>
      Except.error (PyErr.valueErr ("could not convert string to float: " ++ s))

/-- The `AttributeError` of robot.py line 296 for a gesture tag without a
`target` attribute. -/
def missingTargetErr (tag : String) : PyErr :=
  PyErr.attrErr ("Please specify a target attribute for " ++ tag ++ " gesture")

/-- The `TypeError` of robot.py line 302 for a tag in neither vocabulary. -/
def unknownTagErr (tag : String) : PyErr :=
  PyErr.typeErr ("No gesture or expression called: " ++ tag)

/-- Node loop of `SayToPlan.parse_parameters` (robot.py lines 260-305):
`seen` is the `seen_text` accumulator; for each tag node the start index is
the word count of `seen`, the end index the word count after appending the
node's inner text, and the goal is stored in the matching table at the start
index.  `dur` is the external `tts_subsentence_duration` service. -/
def parseGo {δ : Type} (exprE gestE : List String) (dur : String → Nat → Nat → δ)
    (sentence : String) :
    String → SayToPlanState δ → List XNode → Except PyErr (SayToPlanState δ)
  | _, st, [] => Except.ok st
  | seen, st, n :: ns =>
    if n.tag == "sayto" then
      parseGo exprE gestE dur sentence (appendOpt seen n.text) st ns
    else
      let start := num_words seen
      let seen2 := appendOpt seen n.text
      let endI := num_words seen2
      if enum_contains exprE n.tag then
        match attrFloat n "intensity" halfF with
        | Except.error e => Except.error e
        | Except.ok intensity =>
          match attrFloat n "speed" halfF with
          | Except.error e => Except.error e
          | Except.ok speed =>
            let goal : ExpressionGoal δ :=
              ⟨n.tag, intensity, speed, dur sentence start endI⟩
            parseGo exprE gestE dur sentence (appendOpt seen2 n.tail)
              { st with
                expression_lookup := dictInsert start goal st.expression_lookup }
              ns
      else if enum_contains gestE n.tag then
        match n.attrib.lookup "target" with
        | some tgt =>
          let goal : GestureGoal δ := ⟨n.tag, tgt, dur sentence start endI⟩
          parseGo exprE gestE dur sentence (appendOpt seen2 n.tail)
            { st with gesture_lookup := dictInsert start goal st.gesture_lookup }
            ns
        | none => Except.error (missingTargetErr n.tag)
      else Except.error (unknownTagErr n.tag)

/-- Embedding of `SayToPlan.parse_parameters` (robot.py lines 243-305):
reset the plan, keep the audience, compute the clean sentence and the gaze
trigger keys, then walk the tag nodes. -/
def parse_parameters {δ : Type} (exprE gestE : List String)
    (dur : String → Nat → Nat → δ) (audience : Audience) (nodes : List XNode) :
    Except PyErr (SayToPlanState δ) :=
  match get_sentence nodes with
  | Except.error e => Except.error e
  | Except.ok sentence =>
    parseGo exprE gestE dur sentence ""
      ⟨audience, none, sentence, [], [], get_gaze_change_locations sentence,
        none, none, [], false⟩
      nodes

/-- The error, if any, that the `parse_parameters` node loop raises at this
node, mirroring the branch order of robot.py lines 261-302. -/
def nodeFault (exprE gestE : List String) (n : XNode) : Option PyErr :=
  if n.tag == "sayto" then none
  else if enum_contains exprE n.tag then
    match attrFloat n "intensity" halfF with
    | Except.error e => some e
    | Except.ok _ =>
      match attrFloat n "speed" halfF with
      | Except.error e => some e
      | Except.ok _ => none
  else if enum_contains gestE n.tag then
    if (n.attrib.lookup "target").isSome then none
    else some (missingTargetErr n.tag)
  else some (unknownTagErr n.tag)

/-- The first error the node loop meets, in document order. -/
def firstFault (exprE gestE : List String) (nodes : List XNode) : Option PyErr :=
  nodes.findSome? (nodeFault exprE gestE)

/-- A node the claim calls out: a gesture-vocabulary tag without a `target`
attribute, or a tag in neither vocabulary. -/
def isOffender (exprE gestE : List String) (n : XNode) : Bool :=
  !(n.tag == "sayto") && !enum_contains exprE n.tag &&
    ((enum_contains gestE n.tag && (n.attrib.lookup "target").isNone) ||
      !enum_contains gestE n.tag)

/-- Embedding of `Robot.say_to` (robot.py lines 509-521): compile the plan
with `parse_parameters` — any parse exception propagates to the caller here —
and only then hand the compiled plan to `SayToPlan.execute`, the sole point
from which the plan's commands are issued. -/
def say_to {δ : Type} (exprE gestE : List String) (dur : String → Nat → Nat → δ)
    (audience : Audience) (nodes : List XNode) : Except PyErr (SayToPlanState δ) :=
  parse_parameters exprE gestE dur audience nodes

/-! Embedding of the plan executor and feedback loop. -/

/-- Modelled from the spec: the feedback message type
`hri_msgs/TextToSpeechFeedback` is not under src/ (only `robot.py`, its
consumer, is).  Spec section 6 specifies the feedback stream as events
carrying a nondecreasing progress marker, which the glossary fixes as "the
current word index of speech playback"; so the message carries the single
field `current_word_index` and, in particular, has no field named
`current_word_num`. -/
structure TextToSpeechFeedback where
  current_word_index : Nat
  deriving DecidableEq, Repr

/-- The `AttributeError` raised by robot.py line 550, which subscripts the
expression table with the nonexistent field `feedback.current_word_num`. -/
def feedbackAttrErr : PyErr :=
  PyErr.attrErr "TextToSpeechFeedback object has no attribute current_word_num"

/-- Gaze-retrigger block of `Robot.say_feedback` (robot.py lines 528-547):
when the current word index is a gaze trigger key, the re-resolved
`(entity id, head entity id)` to gaze at — the audience entity itself, the
`pick`-chosen member (`random.choice`) of a multi-member query result, or the
sole member of a singleton result.  A plain-list audience matches neither
`isinstance` test, and no command results.  No branch consults
`preempt_requested`. -/
def gazeRetriggerTarget {δ : Type} (pick : List (String × String) → String × String)
    (p : SayToPlanState δ) (f : TextToSpeechFeedback) : Option (String × String) :=
  if p.gaze_change_locations.contains f.current_word_index then
    match p.audience with
    | Audience.entity id headId => some (id, headId)
    | Audience.query people =>
      if 1 < people.length then some (pick people)
      else
        match people with
        | [pers] => some pers
        | _ => none
    | Audience.plainList _ => none
  else none

/-- The commands `Robot.say_feedback` issues for one feedback tick
(robot.py lines 527-557): the gaze retrigger command, if any, then — unless
the expression-table hit raises `AttributeError` at line 550 first — the
gesture-table command, if any.  No branch consults `preempt_requested`. -/
def sayFeedbackIssued {δ : Type} (pick : List (String × String) → String × String)
    (p : SayToPlanState δ) (f : TextToSpeechFeedback) : List (Cmd δ) :=
  (match gazeRetriggerTarget pick p f with
   | some pers => [Cmd.gazeAt pers.2]
   | none => []) ++
  (if (p.expression_lookup.lookup f.current_word_index).isSome then []
   else
     match p.gesture_lookup.lookup f.current_word_index with
     | some g => [Cmd.gest g]
     | none => [])

/-- The exception propagating out of one `Robot.say_feedback` call: the
line-550 `AttributeError` exactly when the tick's word index has an
expression-table entry. -/
def sayFeedbackError {δ : Type} (p : SayToPlanState δ)
    (f : TextToSpeechFeedback) : Option PyErr :=
  if (p.expression_lookup.lookup f.current_word_index).isSome then
    some feedbackAttrErr
  else none

/-- The plan state after one `Robot.say_feedback` call: the gaze block
updates `current_gazee` and overwrites `gaze_ah` (robot.py lines 531-547);
the gesture block records the returned handle as an auxiliary handle via
`SayToPlan.add_action_handle` (robot.py lines 556-557, 198-199). -/
def sayFeedbackPlan {δ : Type} (pick : List (String × String) → String × String)
    (p : SayToPlanState δ) (f : TextToSpeechFeedback) : SayToPlanState δ :=
  let p1 :=
    match gazeRetriggerTarget pick p f with
    | some pers =>
      { p with current_gazee := some pers.1, gaze_ah := some (Cmd.gazeAt pers.2) }
    | none => p
  if (p1.expression_lookup.lookup f.current_word_index).isSome then p1
  else
    match p1.gesture_lookup.lookup f.current_word_index with
    | some g => { p1 with other_ahs := p1.other_ahs ++ [Cmd.gest g] }
    | none => p1

/-- Events of one `SayToPlan.__execute` run, in program order. -/
inductive ExecEvent
  | gazeIssued
  | gazeWaitReturned
  | speechIssued
  deriving DecidableEq, Repr

/-- The audience as `__execute` sees it: a single entity, or the
distance-sorted result list of a query (a plain-list audience is wrapped
into a query at robot.py lines 178-179, so it is the query case). -/
inductive ExecAudience
  | entity
  | query (results : List String)
  deriving DecidableEq, Repr

/-- Embedding of `SayToPlan.__execute` (robot.py lines 167-196) as the event
sequence of one run.  The preemption flag is written concurrently by
`cancel`; its value at each of the two lock-protected checks (before gaze
issuance, line 175/188, and before speech issuance, line 195) enters as a
parameter.  An entity audience always yields a gaze candidate; a query
audience yields one exactly when its result list is nonempty (line 183).
The speech command is issued only after `robot.wait` on the issued gaze
handle has returned (lines 191-196). -/
def executeTrace (aud : ExecAudience) (preemptAtGazeCheck preemptAtSpeechCheck : Bool) :
    List ExecEvent :=
  let gazeGo : Bool :=
    match aud with
    | ExecAudience.entity => !preemptAtGazeCheck
    | ExecAudience.query results =>
      if 0 < results.length then !preemptAtGazeCheck else false
  let t := if gazeGo then [ExecEvent.gazeIssued, ExecEvent.gazeWaitReturned] else []
  if !preemptAtSpeechCheck then t ++ [ExecEvent.speechIssued] else t

/-! Embedding of cancellation and handle bookkeeping. -/

/-- Body of `SayToPlan.cancel(self, robot)` (robot.py lines 150-160), as run
under the plan lock: set the preemption flag, then — if `say_ah` is set —
cancel `gaze_ah` (the source cancels the gaze handle here, not the say
handle), then — if `gaze_ah` is set — cancel `gaze_ah`, then cancel every
auxiliary handle.  `robot.cancel(None)` (reachable when `say_ah` is set but
`gaze_ah` is not) fails the `IActionHandle` type assertion inside
`Robot.cancel` (robot.py line 620).  Returns the updated plan and the
handles cancelled, in order. -/
def cancelBody {δ : Type} (p : SayToPlanState δ) :
    Except PyErr (SayToPlanState δ × List (Cmd δ)) :=
  let p2 := { p with preempt_requested := true }
  match p2.say_ah, p2.gaze_ah with
  | some _, some g => Except.ok (p2, [g, g] ++ p2.other_ahs)
  | some _, none =>
    Except.error (PyErr.typeErr "cancel parameter None is not an IActionHandle")
  | none, some g => Except.ok (p2, [g] ++ p2.other_ahs)
  | none, none => Except.ok (p2, p2.other_ahs)

/-- Number of positional parameters of `SayToPlan.cancel` (robot.py line
150): `self` and `robot`. -/
def sayToPlanCancelParams : Nat := 2

/-- Number of positional arguments the call `self.say_to_plan.cancel()` in
`SayToActionHandle.cancel_action` (robot.py line 103) supplies: only the
bound receiver. -/
def sayToHandleCancelArgs : Nat := 1

/-- Embedding of `SayToActionHandle.cancel_action` (robot.py lines 102-103):
Python raises `TypeError` at call time when a required positional parameter
receives no argument, before any of the callee body runs; only if the call
were well-formed would `cancelBody` execute. -/
def SayToActionHandle.cancel_action {δ : Type} (p : SayToPlanState δ) :
    Except PyErr (SayToPlanState δ × List (Cmd δ)) :=
  if sayToHandleCancelArgs = sayToPlanCancelParams then cancelBody p
  else Except.error (PyErr.typeErr "cancel missing 1 required positional argument: robot")

/-- The handle bookkeeping of the `Robot` facade: the outstanding-handle
list, handles identified by object identity (a number). -/
structure RobotState where
  action_handles : List Nat
  deriving DecidableEq, Repr

/-- Embedding of `Robot.remove_action_handle` (robot.py lines 571-575):
under the facade lock, remove the handle's first occurrence if present,
otherwise leave the list unchanged. -/
def remove_action_handle (s : RobotState) (h : Nat) : RobotState :=
  if h ∈ s.action_handles then ⟨s.action_handles.erase h⟩ else s

/-! Embedding of the entity registry (`World`, world.py). -/

/-- An object registered in the `World`: an `Entity`, a `Query`, or anything
else (rejected).  `payload` distinguishes different objects sharing an id. -/
inductive WObj
  | entity (id : String) (payload : Nat)
  | query (id : String) (payload : Nat)
  | other (id : String) (payload : Nat)
  deriving DecidableEq, Repr

/-- The registered identifier of the object (`entity.get_id()`). -/
def WObj.get_id : WObj → String
  | WObj.entity id _ => id
  | WObj.query id _ => id
  | WObj.other id _ => id

/-- The registry state: the `entities` list and the `entity_id_lookup`
dictionary of `World` (world.py lines 27-28). -/
structure WorldState where
  entities : List WObj
  entity_id_lookup : List (String × WObj)
  deriving DecidableEq, Repr

/-- Embedding of `World.add_to_world` (world.py lines 54-67): an `Entity`
whose id is not yet a lookup key is added to the dictionary and the list; a
`Query` likewise but only to the dictionary; when the id is already a key,
nothing changes; any other object raises `TypeError`. -/
def add_to_world (s : WorldState) (o : WObj) : Except PyErr WorldState :=
  match o with
  | WObj.entity _ _ =>
    if (s.entity_id_lookup.lookup o.get_id).isSome then Except.ok s
    else
      Except.ok ⟨s.entities ++ [o], s.entity_id_lookup ++ [(o.get_id, o)]⟩
  | WObj.query _ _ =>
    if (s.entity_id_lookup.lookup o.get_id).isSome then Except.ok s
    else Except.ok ⟨s.entities, s.entity_id_lookup ++ [(o.get_id, o)]⟩
  | WObj.other _ _ =>
    Except.error
      (PyErr.typeErr "add_to_world parameter entity is not a subclass of Entity or Query")

/-! Concrete scenario inputs. -/

/-- The synthetic root node, as `tree.iter()` yields it for a fragment with
no text before the first tag. -/
def rootNode : XNode := ⟨"sayto", [], none, none⟩

/-- Duration oracle returning no information (the claims under test do not
constrain durations). -/
def unitDur : String → Nat → Nat → Unit := fun _ _ _ => ()

/-- ElementTree node list for the section-8 scenario input
`<happy intensity="0.8">Hi</happy> <wave target="P">there</wave>`:
the root (no leading text), the `happy` node with inner text `Hi` and the
single-space tail between the tags, and the `wave` node with inner text
`there` and no tail. -/
def scenarioNodes : List XNode :=
  [rootNode,
   ⟨"happy", [("intensity", "0.8")], some "Hi", some " "⟩,
   ⟨"wave", [("target", "P")], some "there", none⟩]

/-- ElementTree node list for the fragment `<wave/>x`: a self-closing
targetless `wave` tag with no inner text and tail `x`. -/
def selfCloseNodes : List XNode :=
  [rootNode, ⟨"wave", [], none, some "x"⟩]

/-- ElementTree node list for the fragment `<wave>x</wave>`: a targetless
`wave` tag with inner text and no tail. -/
def plainWaveNodes : List XNode :=
  [rootNode, ⟨"wave", [], some "x", none⟩]

/-- Deterministic stand-in for `random.choice` in concrete runs. -/
def pick0 : List (String × String) → String × String :=
  fun l => l.headD ("", "")

/-- A gesture goal as stored by the compiler. -/
def g0 : GestureGoal Unit := ⟨"wave", "P", ()⟩

/-- An expression goal as stored by the compiler: intensity `0.8` (from the
attribute string `0.8`, hence `8 / 10 ^ 1`), speed the default `0.5`. -/
def e0 : ExpressionGoal Unit := ⟨"happy", ⟨8, 1⟩, halfF, ()⟩

/-- A plan whose preemption flag is already true, with a pending gesture at
word index 2. -/
def planPreempted : SayToPlanState Unit :=
  ⟨Audience.plainList [], none, "Hi there", [(2, g0)], [], [], none, none, [], true⟩

/-- A plan with an expression entry at word index 1 and a gesture entry at
word index 2, not preempted. -/
def planTables : SayToPlanState Unit :=
  ⟨Audience.plainList [], none, "Hi there", [(2, g0)], [(1, e0)], [], none, none, [], false⟩

/-- A facade state holding two outstanding handles. -/
def robotHandles0 : RobotState := ⟨[7, 9]⟩

/-- A registry holding one entity with id `P`. -/
def world0 : WorldState :=
  ⟨[WObj.entity "P" 0], [("P", WObj.entity "P" 0)]⟩

/-! Composition lemmas for the word-scan automaton. -/

theorem cwGo_append (as : List Char) : ∀ (st : TokSt) (bs : List Char),
    cwGo st (as ++ bs) = cwGo st as + cwGo (as.foldl nextSt st) bs := by
  induction as with
  | nil => intro st bs; simp [cwGo]
  | cons c cs ih =>
    intro st bs
    simp only [List.cons_append, cwGo, List.append_eq, List.foldl_cons]
    rw [ih (nextSt st c) bs]
    omega

theorem nextSt_sep (st : TokSt) (c : Char) (hw : isWordChar c = false)
    (hq : c ≠ quoteChar) : nextSt st c = TokSt.s0 := by
  cases st <;> simp [nextSt, hw, hq]

theorem cwGo_nonword (st : TokSt) (c : Char) (cs : List Char)
    (hw : isWordChar c = false) (hq : c ≠ quoteChar) :
    cwGo st (c :: cs) = cwGo TokSt.s0 cs := by
  have h : countInc st c = 0 := by simp [countInc, hw]
  simp [cwGo, h, nextSt_sep st c hw hq]

theorem space_not_word : isWordChar ' ' = false := by decide

theorem space_not_quote : (' ' : Char) ≠ quoteChar := by decide

/-- Scanning across an interior space splits the word count: the space ends
any match in progress and cannot itself start one. -/
theorem countWords_append_space (xs ys : List Char) :
    countWords (xs ++ ' ' :: ys) = countWords xs + countWords ys := by
  unfold countWords
  rw [cwGo_append xs TokSt.s0 (' ' :: ys),
    cwGo_nonword (xs.foldl nextSt TokSt.s0) ' ' ys space_not_word space_not_quote]

theorem punct_not_word (c : Char) (h : isPunctC c = true) : isWordChar c = false := by
  simp only [isPunctC, Bool.or_eq_true, beq_iff_eq] at h
  rcases h with ((h | h) | h) | h <;> subst h <;> decide

theorem punct_not_quote (c : Char) (h : isPunctC c = true) : c ≠ quoteChar := by
  simp only [isPunctC, Bool.or_eq_true, beq_iff_eq] at h
  rcases h with ((h | h) | h) | h <;> subst h <;> decide

/-- Scanning across one of the clause characters `! ? , .` splits the word
count: such a character either closes a match (as its optional trailing
punctuation) or is skipped, and in both cases the scan resumes outside a
match. -/
theorem countWords_append_punct (xs ys : List Char) (p : Char)
    (hp : isPunctC p = true) :
    countWords (xs ++ p :: ys) = countWords xs + countWords ys := by
  unfold countWords
  rw [cwGo_append xs TokSt.s0 (p :: ys),
    cwGo_nonword (xs.foldl nextSt TokSt.s0) p ys (punct_not_word p hp)
      (punct_not_quote p hp)]

theorem splitP_ne_nil (l : List Char) : splitP l ≠ [] := by
  induction l with
  | nil => simp [splitP]
  | cons c cs ih =>
    by_cases hc : isPunctC c
    · simp [splitP, hc]
    · simp only [splitP, hc, if_false, Bool.false_eq_true]
      cases h : splitP cs with
      | nil => simp
      | cons a b => simp

/-- Splitting at the first clause character: if the prefix `piece` contains no
clause character and `p` is one, `re.split` returns `piece` followed by the
split of the remainder. -/
theorem splitP_first (piece : List Char) (p : Char) (rest : List Char)
    (hpiece : ∀ x ∈ piece, isPunctC x = false) (hp : isPunctC p = true) :
    splitP (piece ++ p :: rest) = piece :: splitP rest := by
  induction piece with
  | nil => simp [splitP, hp]
  | cons c cs ih =>
    have hc : isPunctC c = false := hpiece c (List.mem_cons_self c cs)
    have ih2 := ih (fun x hx => hpiece x (List.mem_cons_of_mem c hx))
    simp only [List.cons_append, splitP, hc, if_false, Bool.false_eq_true,
      List.append_eq, ih2]

/-- A clause-character-free list is returned whole by `re.split`. -/
theorem splitP_no_punct (l : List Char) (h : ∀ x ∈ l, isPunctC x = false) :
    splitP l = [l] := by
  induction l with
  | nil => rfl
  | cons c cs ih =>
    have hc : isPunctC c = false := h c (List.mem_cons_self c cs)
    have ih2 := ih (fun x hx => h x (List.mem_cons_of_mem c hx))
    simp [splitP, hc, ih2]

/-- The first element remaining after `dropWhile (fun c => !isPunctC c)` is a
clause character. -/
theorem dropWhile_head_punct {l : List Char} {p : Char} {rest : List Char}
    (h : l.dropWhile (fun c => !isPunctC c) = p :: rest) : isPunctC p = true := by
  induction l with
  | nil => simp [List.dropWhile] at h
  | cons a as ih =>
    rw [List.dropWhile_cons] at h
    by_cases ha : isPunctC a = true
    · simp only [ha, Bool.not_true, Bool.false_eq_true, if_false] at h
      obtain ⟨h1, h2⟩ := List.cons.inj h
      rw [← h1]
      exact ha
    · simp only [Bool.not_eq_true] at ha
      simp only [ha, Bool.not_false, if_true] at h
      exact ih h

/-- The clause word counts of `re.split("[,.?!]", text)` sum to the word
count of `text`. -/
theorem sum_splitP_countWords (l : List Char) :
    ((splitP l).map countWords).sum = countWords l := by
  by_cases hall : ∀ x ∈ l, isPunctC x = false
  · rw [splitP_no_punct l hall]; simp
  · have hsplit := List.takeWhile_append_dropWhile (fun c => !isPunctC c) (l := l)
    cases hd : l.dropWhile (fun c => !isPunctC c) with
    | nil =>
      exfalso
      apply hall
      intro x hx
      rw [← hsplit, hd, List.append_nil] at hx
      have := List.mem_takeWhile_imp hx
      simpa using this
    | cons p rest =>
      have hp : isPunctC p = true := dropWhile_head_punct hd
      obtain ⟨piece, hpl, hpiece⟩ :
          ∃ piece, l = piece ++ p :: rest ∧ ∀ x ∈ piece, isPunctC x = false := by
        refine ⟨l.takeWhile (fun c => !isPunctC c), ?_, ?_⟩
        · conv_lhs => rw [← hsplit]
          rw [hd]
        · intro x hx
          have := List.mem_takeWhile_imp hx
          simpa using this
      have ih := sum_splitP_countWords rest
      rw [hpl, splitP_first piece p rest hpiece hp]
      simp only [List.map_cons, List.sum_cons]
      rw [ih, countWords_append_punct piece rest p hp]
termination_by l.length
decreasing_by
  rw [hpl]
  simp only [List.length_append, List.length_cons]
  omega

/-! Claim theorems. -/

/-- C2 (code bug evidence): invoking `cancel` on a say-to plan's action
handle does not set the preemption flag or cancel any handle — for every
plan state, `SayToActionHandle.cancel_action` raises `TypeError` at call
time, because it calls `SayToPlan.cancel()` without the required positional
`robot` argument. -/
theorem C2_handle_cancel_raises (δ : Type) (p : SayToPlanState δ) :
    SayToActionHandle.cancel_action p
      = Except.error (PyErr.typeErr "cancel missing 1 required positional argument: robot") := rfl

/-- C5 (code bug evidence): on a feedback tick whose word index has an
expression-table entry, `say_feedback` raises `AttributeError` (it subscripts
the table with the nonexistent field `current_word_num`) and issues nothing;
on a tick whose index has a gesture-table entry, it does issue the stored
gesture command and records the returned handle as an auxiliary handle of
the plan, as the claim states. -/
theorem C5_feedback_dispatch :
    sayFeedbackError planTables ⟨1⟩ = some feedbackAttrErr ∧
    sayFeedbackIssued pick0 planTables ⟨1⟩ = [] ∧
    sayFeedbackIssued pick0 planTables ⟨2⟩ = [Cmd.gest g0] ∧
    (sayFeedbackPlan pick0 planTables ⟨2⟩).other_ahs = [Cmd.gest g0] :=
  ⟨rfl, rfl, rfl, rfl⟩

/-- C8 (code bug evidence): removing a handle already removed from the
facade's outstanding-handle list leaves the list unchanged (retirement is
idempotent there), but a second `cancel` on a retired say-to handle is not a
no-op: it raises `TypeError` (as does the first), because `cancel_action`
omits the `robot` argument of `SayToPlan.cancel`. -/
theorem C8_retired_handle :
    remove_action_handle (remove_action_handle robotHandles0 7) 7
        = remove_action_handle robotHandles0 7 ∧
    SayToActionHandle.cancel_action planTables
      = Except.error (PyErr.typeErr "cancel missing 1 required positional argument: robot") :=
  ⟨by decide, rfl⟩

/-- C1 (counterexample): a feedback-tick issuance site issues a command while
the plan's preemption flag is true — with the flag set and a gesture entry at
word index 2, the tick for index 2 issues the stored gesture (and raises
nothing), so it is not the case that every issuance site re-checks the flag
before issuing. -/
theorem C1_counterexample :
    planPreempted.preempt_requested = true ∧
    sayFeedbackIssued pick0 planPreempted ⟨2⟩ = [Cmd.gest g0] ∧
    sayFeedbackError planPreempted ⟨2⟩ = none :=
  ⟨rfl, rfl, rfl⟩

/-- C1 (amended): only the two issuance sites inside `SayToPlan.__execute`
re-check the preemption flag under the plan's lock — the initial gaze is not
issued when the flag is observed true at its check, and the speech command is
not issued when the flag is observed true at its check — while the
feedback-driven issuance sites in `Robot.say_feedback` never read the flag:
they issue exactly the same commands whatever its value. -/
theorem C1_preemption_checks :
    (∀ (aud : ExecAudience) (ps : Bool),
        (executeTrace aud true ps).count ExecEvent.gazeIssued = 0) ∧
    (∀ (aud : ExecAudience) (pg : Bool),
        (executeTrace aud pg true).count ExecEvent.speechIssued = 0) ∧
    (∀ (δ : Type) (pick : List (String × String) → String × String)
        (p : SayToPlanState δ) (f : TextToSpeechFeedback) (b : Bool),
        sayFeedbackIssued pick { p with preempt_requested := b } f
          = sayFeedbackIssued pick p f) := by
  refine ⟨?_, ?_, ?_⟩
  · intro aud ps
    rcases aud with _ | results
    · cases ps <;> decide
    · have ht : executeTrace (ExecAudience.query results) true ps
          = executeTrace ExecAudience.entity true ps := by
        simp [executeTrace]
      rw [ht]
      cases ps <;> decide
  · intro aud pg
    rcases aud with _ | results
    · cases pg <;> decide
    · by_cases h : 0 < results.length
      · have ht : executeTrace (ExecAudience.query results) pg true
            = executeTrace ExecAudience.entity pg true := by
          simp [executeTrace, h]
        rw [ht]
        cases pg <;> decide
      · have ht : executeTrace (ExecAudience.query results) pg true
            = executeTrace ExecAudience.entity true true := by
          simp [executeTrace, h]
        rw [ht]
        decide
  · intro δ pick p f b
    cases p
    rfl

/-- C4 (counterexample): on the section-8 scenario input the compiled plan's
clean sentence is `Hi Hi there`, not `Hi there`, and neither
`expression_table[1]` nor `gesture_table[2]` exists. -/
theorem C4_counterexample :
    (parse_parameters ["happy"] ["wave"] unitDur (Audience.entity "P" "Phead")
        scenarioNodes).map
        (fun st => (st.sentence, st.expression_lookup.lookup 1, st.gesture_lookup.lookup 2))
      = Except.ok ("Hi Hi there", (none : Option (ExpressionGoal Unit)),
          (none : Option (GestureGoal Unit))) ∧
    decide (("Hi Hi there" : String) = "Hi there") = false :=
  ⟨rfl, by decide⟩

/-- C4 (amended): compiling the scenario input yields the clean sentence
`Hi Hi there` (`get_sentence` re-appends a node's text when the node has a
tail), an expression-table entry at word index 0 with name `happy`,
intensity `0.8` and speed `0.5`, and a gesture-table entry at word index 1
with name `wave` and target `P`. -/
theorem C4_compiled_plan :
    parse_parameters ["happy"] ["wave"] unitDur (Audience.entity "P" "Phead")
        scenarioNodes
      = Except.ok ⟨Audience.entity "P" "Phead", none, "Hi Hi there",
          [(1, g0)], [(0, e0)], [4], none, none, [], false⟩ ∧
    e0.intensity.toRat = 4 / 5 ∧ e0.speed.toRat = 1 / 2 := by
  refine ⟨by decide, ?_, ?_⟩ <;> norm_num [e0, halfF, PyFloat.toRat]

/-- Helper for C10: the key recorded for the last clause piece is the running
length plus the total of the remaining clause word counts plus one. -/
theorem gclGo_total_mem : ∀ (ps : List (List Char)), ps ≠ [] → ∀ (len : Nat),
    (len + (ps.map countWords).sum + 1) ∈ gclGo len ps := by
  intro ps
  induction ps with
  | nil => intro h; exact absurd rfl h
  | cons p ps2 ih =>
    intro _ len
    cases hps : ps2 with
    | nil =>
      simp [gclGo]
    | cons q qs =>
      subst hps
      have harith : len + ((p :: q :: qs).map countWords).sum + 1
          = (len + countWords p) + ((q :: qs).map countWords).sum + 1 := by
        simp [List.map_cons]
        omega
      rw [harith]
      simp only [gclGo]
      exact List.mem_cons_of_mem _ (ih (by simp) (len + countWords p))

/-- C10: for every sentence, the gaze-trigger key recorded after the last
clause is the total word count plus one, so the trigger set always contains
the index one past the final word — also when the sentence has no clause
punctuation at all. -/
theorem C10_trailing_trigger (s : String) :
    num_words s + 1 ∈ get_gaze_change_locations s := by
  unfold get_gaze_change_locations num_words
  have h := gclGo_total_mem (splitP s.data) (splitP_ne_nil s.data) 0
  rw [sum_splitP_countWords] at h
  simpa using h

/-- C7: index stability of the compiler.  At every tag node,
`parse_parameters` computes `start_word_index` as the word count of the
`seen_text` accumulator (all text seen strictly before the tag) and
`end_word_index` as the word count after appending the tag's inner text —
and for every accumulator reachable by the loop (empty, or ending in a
space, an invariant every append step preserves) the latter equals
`start_word_index` plus the word count of the inner text alone. -/
theorem C7_index_stability (seen : String) (h : SeenInv seen) (t : String) :
    num_words (appendOpt seen (some t)) = num_words seen + num_words t ∧
    (∀ o : Option String, SeenInv (appendOpt seen o)) := by
  have hspace : (" " : String).data = [' '] := rfl
  constructor
  · show num_words (seen ++ t ++ " ") = num_words seen + num_words t
    have hdata : (seen ++ t ++ " ").data = (seen.data ++ t.data) ++ [' '] := by
      simp [String.data_append, hspace]
    unfold num_words
    rw [hdata]
    have h1 : countWords ((seen.data ++ t.data) ++ [' '])
        = countWords (seen.data ++ t.data) := by
      have h2 := countWords_append_space (seen.data ++ t.data) []
      simpa using h2
    rw [h1]
    rcases h with h0 | ⟨l, hl⟩
    · rw [h0]
      simp [countWords, cwGo]
    · rw [hl]
      have h2 : (l ++ [' ']) ++ t.data = l ++ ' ' :: t.data := by simp
      rw [h2, countWords_append_space l t.data]
      have h3 : countWords (l ++ [' ']) = countWords l := by
        have h4 := countWords_append_space l []
        simpa using h4
      rw [h3]
  · intro o
    cases o with
    | none => exact h
    | some t2 =>
      right
      exact ⟨(seen ++ t2).data, by simp [appendOpt, String.data_append, hspace]⟩

/-- Witness for C7 at a concrete accumulator and inner text. -/
theorem C7_index_stability_witness :
    num_words (appendOpt "Hello " (some "big world"))
        = num_words "Hello " + num_words "big world" ∧
    (∀ o : Option String, SeenInv (appendOpt "Hello " o)) :=
  C7_index_stability "Hello " (Or.inr ⟨"Hello".data, rfl⟩) "big world"

/-- C3: in every `__execute` run, when both a gaze command and the speech
command are issued, the return of the wait on the gaze handle strictly
precedes the speech issuance; and when preemption is observed at the speech
check, the speech command is never issued. -/
theorem C3_gaze_before_speech (aud : ExecAudience) (pg ps : Bool) :
    ((ExecEvent.speechIssued ∈ executeTrace aud pg ps ∧
      ExecEvent.gazeIssued ∈ executeTrace aud pg ps) →
      ExecEvent.gazeWaitReturned ∈ executeTrace aud pg ps ∧
      (executeTrace aud pg ps).indexOf ExecEvent.gazeWaitReturned <
        (executeTrace aud pg ps).indexOf ExecEvent.speechIssued) ∧
    (ps = true → (executeTrace aud pg ps).count ExecEvent.speechIssued = 0) := by
  rcases aud with _ | results
  · cases pg <;> cases ps <;> exact (by decide)
  · by_cases h : 0 < results.length
    · have ht : executeTrace (ExecAudience.query results) pg ps
          = executeTrace ExecAudience.entity pg ps := by
        simp [executeTrace, h]
      rw [ht]
      cases pg <;> cases ps <;> exact (by decide)
    · have ht : executeTrace (ExecAudience.query results) pg ps
          = executeTrace ExecAudience.entity true ps := by
        simp [executeTrace, h]
      rw [ht]
      cases ps <;> exact (by decide)

/-- Witness for C3: with an entity audience and no preemption, the gaze wait
returns strictly before speech is issued; with preemption observed at the
speech check, speech is absent from the run. -/
theorem C3_gaze_before_speech_witness :
    ((executeTrace ExecAudience.entity false false).indexOf ExecEvent.gazeWaitReturned <
      (executeTrace ExecAudience.entity false false).indexOf ExecEvent.speechIssued) ∧
    (executeTrace ExecAudience.entity false true).count ExecEvent.speechIssued = 0 :=
  ⟨((C3_gaze_before_speech ExecAudience.entity false false).1 ⟨by decide, by decide⟩).2,
    (C3_gaze_before_speech ExecAudience.entity false true).2 rfl⟩

/-- Helper for C9: appending a fresh key to an association list makes it
found by `lookup`. -/
theorem lookup_append_fresh {β : Type} (l : List (String × β)) (k : String) (v : β)
    (h : l.lookup k = none) : (l ++ [(k, v)]).lookup k = some v := by
  induction l with
  | nil => simp [List.lookup]
  | cons kv rest ih =>
    obtain ⟨k2, v2⟩ := kv
    rw [List.cons_append]
    by_cases hk : (k == k2) = true
    · simp only [List.lookup, hk] at h
      exact absurd h (by simp)
    · simp only [Bool.not_eq_true] at hk
      simp only [List.lookup, hk] at h ⊢
      exact ih h

/-- C9: registering an entity whose id is already a key of the registry is a
silent no-op (the state, in particular the existing id-to-object mapping, is
returned unchanged), and registering the same entity twice leaves exactly
the state of registering it once. -/
theorem C9_register_idempotent (s : WorldState) (id : String) (pl : Nat) :
    ((s.entity_id_lookup.lookup id).isSome →
      add_to_world s (WObj.entity id pl) = Except.ok s) ∧
    (∀ s2, add_to_world s (WObj.entity id pl) = Except.ok s2 →
      add_to_world s2 (WObj.entity id pl) = Except.ok s2) := by
  constructor
  · intro h
    simp [add_to_world, WObj.get_id, h]
  · intro s2 h2
    cases hl : s.entity_id_lookup.lookup id with
    | some v =>
      have hadd : add_to_world s (WObj.entity id pl) = Except.ok s := by
        simp [add_to_world, WObj.get_id, hl]
      rw [hadd] at h2
      rw [← Except.ok.inj h2]
      exact hadd
    | none =>
      have hadd : add_to_world s (WObj.entity id pl)
          = Except.ok ⟨s.entities ++ [WObj.entity id pl],
              s.entity_id_lookup ++ [(id, WObj.entity id pl)]⟩ := by
        simp [add_to_world, WObj.get_id, hl]
      rw [hadd] at h2
      rw [← Except.ok.inj h2]
      have hfound := lookup_append_fresh s.entity_id_lookup id (WObj.entity id pl) hl
      simp [add_to_world, WObj.get_id, hfound]

/-- Witness for C9: re-registering the entity id `P` of the one-entity
registry (with a different object of the same id) returns the registry
unchanged, and registering twice equals registering once. -/
theorem C9_register_idempotent_witness :
    add_to_world world0 (WObj.entity "P" 1) = Except.ok world0 ∧
    add_to_world world0 (WObj.entity "P" 1) = Except.ok world0 :=
  ⟨(C9_register_idempotent world0 "P" 1).1 (by decide),
    (C9_register_idempotent world0 "P" 1).2 world0
      ((C9_register_idempotent world0 "P" 1).1 (by decide))⟩

/-- Helper for C6: the node loop errors with exactly the first node fault in
document order, and succeeds when no node faults. -/
theorem parseGo_fault_split {δ : Type} (exprE gestE : List String)
    (dur : String → Nat → Nat → δ) (sent : String) (ns : List XNode) :
    ∀ (seen : String) (st : SayToPlanState δ),
      (∃ e, ns.findSome? (nodeFault exprE gestE) = some e ∧
          parseGo exprE gestE dur sent seen st ns = Except.error e) ∨
      (ns.findSome? (nodeFault exprE gestE) = none ∧
          ∃ st2, parseGo exprE gestE dur sent seen st ns = Except.ok st2) := by
  induction ns with
  | nil =>
    intro seen st
    right
    exact ⟨by simp, st, rfl⟩
  | cons n ns2 ih =>
    intro seen st
    by_cases htag : (n.tag == "sayto") = true
    · have hf : nodeFault exprE gestE n = none := by simp [nodeFault, htag]
      simp only [List.findSome?_cons, hf]
      simp only [parseGo, htag, if_true]
      exact ih (appendOpt seen n.text) st
    · by_cases hexpr : enum_contains exprE n.tag = true
      · cases hi : attrFloat n "intensity" halfF with
        | error e =>
          have hf : nodeFault exprE gestE n = some e := by
            simp [nodeFault, htag, hexpr, hi]
          left
          refine ⟨e, by simp [List.findSome?_cons, hf], ?_⟩
          simp [parseGo, htag, hexpr, hi]
        | ok q1 =>
          cases hs : attrFloat n "speed" halfF with
          | error e =>
            have hf : nodeFault exprE gestE n = some e := by
              simp [nodeFault, htag, hexpr, hi, hs]
            left
            refine ⟨e, by simp [List.findSome?_cons, hf], ?_⟩
            simp [parseGo, htag, hexpr, hi, hs]
          | ok q2 =>
            have hf : nodeFault exprE gestE n = none := by
              simp [nodeFault, htag, hexpr, hi, hs]
            simp only [List.findSome?_cons, hf]
            simp only [parseGo, htag, hexpr, hi, hs]
            exact ih _ _
      · by_cases hgest : enum_contains gestE n.tag = true
        · cases ht : n.attrib.lookup "target" with
          | some tgt =>
            have hf : nodeFault exprE gestE n = none := by
              simp [nodeFault, htag, hexpr, hgest, ht]
            simp only [List.findSome?_cons, hf]
            simp only [parseGo, htag, hexpr, hgest, ht]
            exact ih _ _
          | none =>
            have hf : nodeFault exprE gestE n = some (missingTargetErr n.tag) := by
              simp [nodeFault, htag, hexpr, hgest, ht]
            left
            refine ⟨missingTargetErr n.tag, by simp [List.findSome?_cons, hf], ?_⟩
            simp [parseGo, htag, hexpr, hgest, ht]
        · have hf : nodeFault exprE gestE n = some (unknownTagErr n.tag) := by
            simp [nodeFault, htag, hexpr, hgest]
          left
          refine ⟨unknownTagErr n.tag, by simp [List.findSome?_cons, hf], ?_⟩
          simp [parseGo, htag, hexpr, hgest]

/-- Helper for C6: an offending node faults. -/
theorem offender_fault (exprE gestE : List String) (n : XNode)
    (h : isOffender exprE gestE n = true) : (nodeFault exprE gestE n).isSome := by
  simp only [isOffender, Bool.and_eq_true, Bool.or_eq_true, Bool.not_eq_true'] at h
  obtain ⟨⟨htag, hexpr⟩, hrest⟩ := h
  rcases hrest with ⟨hgest, htgt⟩ | hgest
  · simp [nodeFault, htag, hexpr, hgest, Option.isNone_iff_eq_none.mp htgt]
  · simp [nodeFault, htag, hexpr, hgest]

/-- Helper for C6: a faulting member makes the scan fault. -/
theorem findSome?_isSome_of_mem {α β : Type} (f : α → Option β) {l : List α} {x : α}
    (hx : x ∈ l) (hf : (f x).isSome) : (l.findSome? f).isSome := by
  induction l with
  | nil => cases hx
  | cons a as ih =>
    rw [List.findSome?_cons]
    cases hfa : f a with
    | some b => simp
    | none =>
      rcases List.mem_cons.mp hx with rfl | hx2
      · rw [hfa] at hf
        simp at hf
      · simpa using ih hx2

/-- C6 (amended): plan compilation fails whenever the fragment holds a
gesture-vocabulary tag without a `target` attribute or a tag in neither
vocabulary; when `get_sentence` succeeds the raised error is the one of the
first faulting node in document order — the missing-target
`AttributeError` naming the tag, respectively the unknown-tag `TypeError`
naming the tag (a node with a tail but no inner text instead makes
`get_sentence` raise a plain `TypeError` first); and every compilation error
propagates out of `say_to` unchanged, before the plan executor — the sole
source of issued commands — is ever started. -/
theorem C6_parse_failure {δ : Type} (exprE gestE : List String)
    (dur : String → Nat → Nat → δ) (aud : Audience) (nodes : List XNode) :
    (∀ e, parse_parameters exprE gestE dur aud nodes = Except.error e →
      say_to exprE gestE dur aud nodes = Except.error e) ∧
    (∀ e s, get_sentence nodes = Except.ok s →
      firstFault exprE gestE nodes = some e →
      parse_parameters exprE gestE dur aud nodes = Except.error e) ∧
    ((∃ n ∈ nodes, isOffender exprE gestE n = true) →
      ∃ e, parse_parameters exprE gestE dur aud nodes = Except.error e) := by
  have hmain : ∀ e s, get_sentence nodes = Except.ok s →
      firstFault exprE gestE nodes = some e →
      parse_parameters exprE gestE dur aud nodes = Except.error e := by
    intro e s hs hf
    have hpp : parse_parameters exprE gestE dur aud nodes
        = parseGo exprE gestE dur s ""
            ⟨aud, none, s, [], [], get_gaze_change_locations s, none, none, [], false⟩
            nodes := by
      unfold parse_parameters
      rw [hs]
    rw [hpp]
    rcases parseGo_fault_split exprE gestE dur s nodes ""
        ⟨aud, none, s, [], [], get_gaze_change_locations s, none, none, [], false⟩ with
      ⟨e2, he2, hp⟩ | ⟨hn2, st2, hp⟩
    · unfold firstFault at hf
      rw [hf] at he2
      rw [Option.some.inj he2]
      exact hp
    · unfold firstFault at hf
      rw [hf] at hn2
      simp at hn2
  refine ⟨fun e h => h, hmain, ?_⟩
  rintro ⟨n, hn, hoff⟩
  cases hgs : get_sentence nodes with
  | error e =>
    refine ⟨e, ?_⟩
    unfold parse_parameters
    rw [hgs]
  | ok s =>
    have hsome : (firstFault exprE gestE nodes).isSome :=
      findSome?_isSome_of_mem (nodeFault exprE gestE) hn
        (offender_fault exprE gestE n hoff)
    cases hff : firstFault exprE gestE nodes with
    | none =>
      rw [hff] at hsome
      simp at hsome
    | some e => exact ⟨e, hmain e s hgs hff⟩

/-- Witness for C6 on the fragment `<wave>x</wave>` with `wave` in the
gesture vocabulary: compilation fails with the missing-target error naming
`wave`, and `say_to` fails with the same error. -/
theorem C6_parse_failure_witness :
    parse_parameters ["happy"] ["wave"] unitDur (Audience.entity "P" "Phead")
        plainWaveNodes = Except.error (missingTargetErr "wave") ∧
    say_to ["happy"] ["wave"] unitDur (Audience.entity "P" "Phead")
        plainWaveNodes = Except.error (missingTargetErr "wave") ∧
    (∃ e, parse_parameters ["happy"] ["wave"] unitDur (Audience.entity "P" "Phead")
        plainWaveNodes = Except.error e) := by
  have h := C6_parse_failure ["happy"] ["wave"] unitDur
    (Audience.entity "P" "Phead") plainWaveNodes
  have hp := h.2.1 (missingTargetErr "wave") "x" rfl rfl
  exact ⟨hp, h.1 _ hp,
    h.2.2 ⟨⟨"wave", [], some "x", none⟩, by decide, by decide⟩⟩

/-- C6 (counterexample): on the fragment `<wave/>x` — a gesture tag lacking
its `target` attribute — compilation fails, but with the plain `TypeError`
of `get_sentence` line 231 (`None + " "`), not with a missing-target error
naming the tag. -/
theorem C6_counterexample :
    parse_parameters ["happy"] ["wave"] unitDur (Audience.entity "P" "Phead")
        selfCloseNodes = Except.error concatTypeErr ∧
    decide (concatTypeErr = missingTargetErr "wave") = false :=
  ⟨rfl, by decide⟩
